import Mathlib

/-!
Shallow embedding of the Kaminario K2 Cinder volume driver
(`source/kaminario/kaminario_common.py`) and proofs about its
entity-lifecycle operations.

The driver manipulates remote array entities (volume groups, volumes,
snapshots, hosts, mappings) through a REST client.  The array itself is not
part of the repository, so its entity store is modelled from the spec's data
model: each collection is a list of records, search is a name-keyed filter,
`total != 0` corresponds to a non-empty filter result, and `hits[0].delete()`
removes the first record carrying the searched name (names are globally
unique on the array per the spec, so this coincides with handle deletion).
Deleting a volume group cascades to the volumes it contains (spec: deleting
the group "cascades cleanup of a partially created volume context").

Fallible array calls (`client.new(...).save()`, attach primitives, block
copy) are driven by explicit outcome parameters so that every failure point
of a lifecycle operation can be exercised; Python exception handlers become
explicit error branches that carry the array state at the moment the
exception was raised.  Python 2 arithmetic (`/` on ints floors) is modelled
with natural-number division.
-/

namespace Kaminario

/-- `oslo_utils.units.Mi = 1048576` (2^20). -/
def Mi : Nat := 1048576

/-- `MAX_K2_RETRY = 5`. -/
def MAX_K2_RETRY : Nat := 5

/-! ## Naming rules (pure functions from the source) -/

/-- `get_volume_group_name`: `"cvg-{0}".format(vid)`. -/
def get_volume_group_name (vid : String) : String := "cvg-" ++ vid

/-- `get_volume_name`: `"cv-{0}".format(vid)`. -/
def get_volume_name (vid : String) : String := "cv-" ++ vid

/-- `get_snap_name`: `"cs-{0}".format(sid)`. -/
def get_snap_name (sid : String) : String := "cs-" ++ sid

/-- `get_view_name`: `"cview-{0}".format(vid)`. -/
def get_view_name (vid : String) : String := "cview-" ++ vid

/-- The character class `[0-9a-zA-Z-_]` of `get_initiator_host_name`'s
`re.sub` (the `-` after `Z` is literal). -/
def validHostChar (c : Char) : Bool :=
  c.isAlphanum || c == '-' || c == '_'

/-- One character of the `re.sub('[^0-9a-zA-Z-_]', '_', ...)` substitution. -/
def replChar (c : Char) : Char :=
  if validHostChar c then c else '_'

/-- The string transformation of `get_initiator_host_name`:
`re.sub('[^0-9a-zA-Z-_]', '_', raw)[:32]`.  The regex replaces character by
character, so it is the per-character map followed by the 32-character
slice. -/
def derive_host_name (raw : String) : String :=
  ((raw.toList.map replChar).take 32).asString

/-- Python `dict.get(k)` on the connector-properties structure, modelled as
an association list. -/
def dict_get (d : List (String × String)) (k : String) : Option String :=
  (d.find? (fun p => p.1 == k)).map (fun p => p.2)

/-- `get_initiator_host_name`: `connector.get('host', '')` fed through the
substitution and truncation. -/
def get_initiator_host_name (connector : List (String × String)) : String :=
  derive_host_name ((dict_get connector "host").getD "")

/-! ## Generic first-match deletion (models `hits[0].delete()`) -/

/-- Remove the first element satisfying `p` (the searched `hits[0]`). -/
def delFirst (p : α → Bool) : List α → List α
  | [] => []
  | x :: xs => if p x then xs else x :: delFirst p xs

theorem delFirst_sublist (p : α → Bool) (l : List α) :
    List.Sublist (delFirst p l) l := by
  induction l with
  | nil => simp [delFirst]
  | cons x xs ih =>
    simp only [delFirst]
    split
    · exact List.sublist_cons_self x xs
    · exact List.Sublist.cons₂ x ih

theorem delFirst_of_filter_nil (p : α → Bool) (l : List α)
    (h : l.filter p = []) : delFirst p l = l := by
  induction l with
  | nil => rfl
  | cons x xs ih =>
    simp only [List.filter_cons] at h
    split at h
    · exact absurd h (by simp)
    · simp only [delFirst]
      rw [if_neg (by simp_all), ih h]

theorem filter_delFirst_nil (p : α → Bool) (l : List α)
    (h : (l.filter p).length ≤ 1) : (delFirst p l).filter p = [] := by
  induction l with
  | nil => rfl
  | cons x xs ih =>
    simp only [List.filter_cons] at h
    simp only [delFirst]
    by_cases hx : p x
    · rw [if_pos hx]
      rw [if_pos hx] at h
      simp only [List.length_cons] at h
      exact List.filter_eq_nil_iff.2 fun a ha => by
        have : (xs.filter p).length = 0 := by omega
        have hnil : xs.filter p = [] := List.length_eq_zero.1 this
        intro hpa
        have : a ∈ xs.filter p := List.mem_filter.2 ⟨ha, hpa⟩
        simp [hnil] at this
    · rw [if_neg hx]
      rw [if_neg hx] at h
      simp only [List.filter_cons, ih h, if_neg hx]

/-- Absence of `p`-elements is preserved by any sublist (hence by
`delFirst q` and by `List.filter q`). -/
theorem filter_nil_of_sublist (p : α → Bool) {l₁ l₂ : List α}
    (hs : List.Sublist l₁ l₂) (h : l₂.filter p = []) : l₁.filter p = [] :=
  List.sublist_nil.1 (h ▸ List.Sublist.filter p hs)

theorem delFirst_append_singleton (p : α → Bool) (l : List α) (x : α)
    (hl : l.filter p = []) (hx : p x) : delFirst p (l ++ [x]) = l := by
  induction l with
  | nil => simp [delFirst, hx]
  | cons y ys ih =>
    simp only [List.filter_cons] at hl
    split at hl
    · exact absurd hl (by simp)
    · simp only [List.cons_append, delFirst]
      rw [if_neg (by simp_all)]
      exact congrArg (List.cons y) (ih hl)

theorem filter_append_singleton_pos (p : α → Bool) (l : List α) (x : α)
    (hx : p x) : (l ++ [x]).filter p = l.filter p ++ [x] := by
  simp [List.filter_append, hx]

theorem filter_append_singleton_neg (p : α → Bool) (l : List α) (x : α)
    (hx : ¬ p x) : (l ++ [x]).filter p = l.filter p := by
  simp [List.filter_append, List.filter_cons, hx]

/-! ## Array entity model (from the spec's data model, §3) -/

structure VolumeGroup where
  name : String
  quota : Nat
  is_dedup : Bool
deriving DecidableEq, Repr

structure Volume where
  name : String
  /-- Size in the array's unit; `create_volume` stores `size * units.Mi`. -/
  size : Nat
  volume_group : String
deriving DecidableEq, Repr

structure Snapshot where
  short_name : String
  source : String
  is_exposable : Bool
deriving DecidableEq, Repr

structure Host where
  name : String
deriving DecidableEq, Repr

structure Mapping where
  volume : String
  host : String
deriving DecidableEq, Repr

structure ArrayState where
  volume_groups : List VolumeGroup
  volumes : List Volume
  snapshots : List Snapshot
  hosts : List Host
  mappings : List Mapping
deriving DecidableEq, Repr

def empty_state : ArrayState := ⟨[], [], [], [], []⟩

/-- `client.search("volumes", name=n)`. -/
def searchVolumes (s : ArrayState) (n : String) : List Volume :=
  s.volumes.filter (fun v => v.name == n)

/-- `client.search("volume_groups", name=n)`. -/
def searchVG (s : ArrayState) (n : String) : List VolumeGroup :=
  s.volume_groups.filter (fun g => g.name == n)

/-- `client.search("snapshots", short_name=n)`. -/
def searchSnaps (s : ArrayState) (n : String) : List Snapshot :=
  s.snapshots.filter (fun t => t.short_name == n)

/-- `client.search("hosts", name=n)`. -/
def searchHosts (s : ArrayState) (n : String) : List Host :=
  s.hosts.filter (fun h => h.name == n)

/-- `client.search("mappings", volume=v, host=h)`. -/
def searchMappings (s : ArrayState) (vol host : String) : List Mapping :=
  s.mappings.filter (fun m => m.volume == vol && m.host == host)

/-- `client.search("mappings", host=h)`. -/
def hostMappings (s : ArrayState) (host : String) : List Mapping :=
  s.mappings.filter (fun m => m.host == host)

def addVG (s : ArrayState) (g : VolumeGroup) : ArrayState :=
  { s with volume_groups := s.volume_groups ++ [g] }

def addVolume (s : ArrayState) (v : Volume) : ArrayState :=
  { s with volumes := s.volumes ++ [v] }

def addSnap (s : ArrayState) (t : Snapshot) : ArrayState :=
  { s with snapshots := s.snapshots ++ [t] }

def addHost (s : ArrayState) (h : Host) : ArrayState :=
  { s with hosts := s.hosts ++ [h] }

def addMapping (s : ArrayState) (m : Mapping) : ArrayState :=
  { s with mappings := s.mappings ++ [m] }

/-- `vg.delete()` on the first group named `n`; deleting a volume group
cascades to the volumes it contains (spec §4.4). -/
def deleteVGByName (s : ArrayState) (n : String) : ArrayState :=
  { s with
    volume_groups := delFirst (fun g => g.name == n) s.volume_groups,
    volumes := s.volumes.filter (fun v => !(v.volume_group == n)) }

/-- `vol.delete()` on the first volume named `n`. -/
def deleteVolumeFirst (s : ArrayState) (n : String) : ArrayState :=
  { s with volumes := delFirst (fun v => v.name == n) s.volumes }

/-- `snap.delete()` on the first snapshot with short name `n`. -/
def deleteSnapFirst (s : ArrayState) (n : String) : ArrayState :=
  { s with snapshots := delFirst (fun t => t.short_name == n) s.snapshots }

/-- `host.delete()` on the first host named `n`. -/
def deleteHostByName (s : ArrayState) (n : String) : ArrayState :=
  { s with hosts := delFirst (fun h => h.name == n) s.hosts }

/-- `mapping.delete()` on the first mapping of `vol` to `host`. -/
def deleteMappingFirst (s : ArrayState) (vol host : String) : ArrayState :=
  { s with mappings := delFirst (fun m => m.volume == vol && m.host == host) s.mappings }

/-! ## Errors and operation results -/

/-- The exceptions the driver raises or propagates:
`KaminarioCinderDriverException` (driver), `ManageExistingInvalidReference`
(invalidRef), `KaminarioRetryableException` (retryable, the spec's
`TransientArrayError`) and `requests` `HTTPError` (arrayHttp, the spec's
`ArrayRequestError` carrying status code and body text). -/
inductive KErr where
  | driver (reason : String)
  | invalidRef (reason : String)
  | retryable (reason : String)
  | arrayHttp (code : Nat) (body : String)
deriving DecidableEq, Repr

deriving instance DecidableEq for Except

/-- Externally visible side effects of a lifecycle operation that are not
array-state mutations (attach/detach and block-copy primitives are external
collaborators, spec §6). -/
inductive Event where
  | attach (vol host : String)
  | connectDev (vol : String)
  | copyData (src dst : String)
  | disconnect
deriving DecidableEq, Repr

/-- Result of running one driver operation: the array state afterwards, the
external side effects, and either a return value or the raised exception. -/
structure DriverResult (α : Type) where
  state : ArrayState
  events : List Event
  result : Except KErr α

def isDriverErr {α : Type} : Except KErr α → Bool
  | .error (.driver _) => true
  | _ => false

/-- Outcome of one `client.new(...).save()` call: success, failure with
nothing created on the array, or failure with the entity nevertheless
created (a partially created context that the exception handler must
clean up). -/
inductive SaveOutcome where
  | ok
  | failClean
  | failCreated
deriving DecidableEq, Repr

/-- `terminate_connection` distinguishes an already-resolved array handle
(`type(volume).__name__ == 'RestObject'`) from an orchestrator domain
object carrying only the id. -/
inductive VolumeRef where
  | byId (vid : String)
  | handle (name : String)
deriving DecidableEq, Repr

/-! ## Transport layer (`KrestWrap`) -/

/-- What the array answers to one wire request: success, or an HTTP error
with status code and body text. -/
inductive ArrayReply where
  | ok
  | httpError (code : Nat) (body : String)
deriving DecidableEq, Repr

def K2_RETRY_ERRORS : List String :=
  ["MC_ERR_BUSY", "MC_ERR_BUSY_SPECIFIC", "MC_ERR_INPROGRESS",
   "MC_ERR_START_TIMEOUT"]

/-- Python's substring test `needle in haystack` on character lists. -/
def hasSub (needle : List Char) : List Char → Bool
  | [] => needle == []
  | c :: rest => needle.isPrefixOf (c :: rest) || hasSub needle rest

/-- `KrestWrap._should_retry`: HTTP 400 whose body contains one of the
recognized busy/in-progress error codes. -/
def should_retry (err_code : Nat) (err_msg : String) : Bool :=
  err_code == 400 &&
    K2_RETRY_ERRORS.any (fun er => hasSub er.toList err_msg.toList)

/-- The body of `KrestWrap._request` for one attempt: a recognized
busy error is re-raised as `KaminarioRetryableException`, any other
HTTP error propagates unchanged. -/
def request_once (r : ArrayReply) : Except KErr Unit :=
  match r with
  | .ok => .ok ()
  | .httpError code body =>
    if should_retry code body then .error (.retryable body)
    else .error (.arrayHttp code body)

/-- Result of a transport call: how many attempts were made and what the
caller observes. -/
structure TransportResult where
  attempts : Nat
  outcome : Except KErr Unit
deriving Repr

/-- Modelled from the spec: the retry decorator
`utils.retry(KaminarioRetryableException, retries=MAX_K2_RETRY)` comes from
the orchestration framework and is not part of this repository.  Per the
spec (§4.1, §7) a recognized transient error is retried up to 5 total
attempts with no backoff and, if exhausted, escalates to the non-transient
`ArrayRequestError`; any other error stops the loop at once.
`oracle n` is the array's reply to the n-th attempt. -/
def retry_call (oracle : Nat → ArrayReply) (attempt : Nat) :
    Nat → TransportResult
  | 0 =>
    match request_once (oracle attempt) with
    | .ok () => ⟨attempt, .ok ()⟩
    | .error (.retryable m) => ⟨attempt, .error (.arrayHttp 400 m)⟩
    | .error e => ⟨attempt, .error e⟩
  | remaining + 1 =>
    match request_once (oracle attempt) with
    | .ok () => ⟨attempt, .ok ()⟩
    | .error (.retryable _) => retry_call oracle (attempt + 1) remaining
    | .error e => ⟨attempt, .error e⟩

/-- One `KrestWrap._request` call as the caller sees it, retries included. -/
def transport (oracle : Nat → ArrayReply) : TransportResult :=
  retry_call oracle 1 (MAX_K2_RETRY - 1)

/-! ## Lifecycle operations -/

/-- `create_volume`: create the volume group, then the volume inside it; on
failure of either step, search the group by name, delete it if found, and
re-raise as the driver exception.  `fvg` and `fvol` are the outcomes of the
two `save()` calls. -/
def create_volume (fvg fvol : SaveOutcome) (vid : String) (size : Nat)
    (dedup : Bool) (s : ArrayState) : DriverResult Unit :=
  let vg_name := get_volume_group_name vid
  let vol_name := get_volume_name vid
  let attempt : Except (String × ArrayState) ArrayState :=
    match fvg with
    | .failClean => .error ("volume group save failed", s)
    | .failCreated => .error ("volume group save failed",
        addVG s ⟨vg_name, 0, dedup⟩)
    | .ok =>
      let s1 := addVG s ⟨vg_name, 0, dedup⟩
      match fvol with
      | .failClean => .error ("volume save failed", s1)
      | .failCreated => .error ("volume save failed",
          addVolume s1 ⟨vol_name, size * Mi, vg_name⟩)
      | .ok => .ok (addVolume s1 ⟨vol_name, size * Mi, vg_name⟩)
  match attempt with
  | .ok s2 => ⟨s2, [], .ok ()⟩
  | .error (msg, sE) =>
    let sC := if (searchVG sE vg_name).length != 0
              then deleteVGByName sE vg_name else sE
    ⟨sC, [], .error (.driver msg)⟩

/-- `delete_volume`: search the volume by derived name and delete it if
found, then the volume group likewise; absent entities are no-ops. -/
def delete_volume (vid : String) (s : ArrayState) : DriverResult Unit :=
  let vg_name := get_volume_group_name vid
  let vol_name := get_volume_name vid
  let s1 := if (searchVolumes s vol_name).length != 0
            then deleteVolumeFirst s vol_name else s
  let s2 := if (searchVG s1 vg_name).length != 0
            then deleteVGByName s1 vg_name else s1
  ⟨s2, [], .ok ()⟩

/-- `terminate_connection`: resolve the volume (search by derived name when
given a domain object; when the search is empty the domain object itself is
passed as the mapping filter and matches no array mapping), resolve the
host by derived name; if the host exists, delete the mapping between the
two if present, then delete the host when it has no mappings left; an
absent host is only a warning. -/
def terminate_connection (vref : VolumeRef)
    (connector : List (String × String)) (s : ArrayState) :
    DriverResult Unit :=
  let volKey : Option String :=
    match vref with
    | .handle n => some n
    | .byId vid =>
      let n := get_volume_name vid
      if (searchVolumes s n).length != 0 then some n else none
  let host_name := get_initiator_host_name connector
  if (searchHosts s host_name).length != 0 then
    let s1 := match volKey with
      | some n =>
        if (searchMappings s n host_name).length != 0
        then deleteMappingFirst s n host_name else s
      | none => s
    let s2 := if (hostMappings s1 host_name).length == 0
              then deleteHostByName s1 host_name else s1
    ⟨s2, [], .ok ()⟩
  else ⟨s, [], .ok ()⟩

/-- Modelled from the spec: `self.initialize_connection` is a stub (`pass`)
in this file and is supplied by the transport subclasses, which map the
volume to the connector's host through `k2_initialize_connection`
(resolve-or-create the host, create the mapping; on failure a newly created
host is removed again, leaving the array unchanged). -/
def do_attach (ok : Bool) (vol_name : String)
    (connector : List (String × String)) (s : ArrayState) :
    ArrayState × Except KErr Unit :=
  if ok then
    let host_name := get_initiator_host_name connector
    let s1 := if (searchHosts s host_name).length != 0 then s
              else addHost s ⟨host_name⟩
    (addMapping s1 ⟨vol_name, host_name⟩, .ok ())
  else (s, .error (.driver "attach failed"))

/-- Outcomes of the fallible steps of `create_volume_from_snapshot` and
`create_cloned_volume`: the view `save()`, the two attaches and device
connects, the two `save()`s of the nested `create_volume`, and the block
copy. -/
structure FlowEnv where
  viewSave : SaveOutcome
  srcAttachOk : Bool
  srcConnectOk : Bool
  vgSave : SaveOutcome
  volSave : SaveOutcome
  destAttachOk : Bool
  destConnectOk : Bool
  copyOk : Bool
deriving DecidableEq, Repr

/-- The `except` block of `create_volume_from_snapshot`: disconnect both
attachments, terminate the view's connection, terminate the volume's
connection, delete the view, delete the partially created destination
volume, and re-raise as the driver exception.  `sE` is the array state at
the moment the exception was raised. -/
def snap_fail (vid view_name : String) (connector : List (String × String))
    (msg : String) (sE : ArrayState) (evs : List Event) : DriverResult Unit :=
  let s1 := (terminate_connection (.handle view_name) connector sE).state
  let s2 := (terminate_connection (.byId vid) connector s1).state
  let s3 := deleteSnapFirst s2 view_name
  let s4 := (delete_volume vid s3).state
  ⟨s4, evs ++ [.disconnect], .error (.driver msg)⟩

/-- The `try` block of `create_volume_from_snapshot`, entered with the view
already created: attach the view, connect it, create the destination
volume, attach and connect it, copy the blocks, then disconnect, terminate
both connections and delete the view. -/
def snap_try (env : FlowEnv) (vid : String) (size : Nat) (dedup : Bool)
    (view_name vol_name : String) (connector : List (String × String))
    (s : ArrayState) : DriverResult Unit :=
  let host_name := get_initiator_host_name connector
  match do_attach env.srcAttachOk view_name connector s with
  | (sE, .error _) => snap_fail vid view_name connector "attach view failed" sE []
  | (s1, .ok _) =>
    let evs1 := [Event.attach view_name host_name]
    if env.srcConnectOk then
      let evs2 := evs1 ++ [Event.connectDev view_name]
      let rC := create_volume env.vgSave env.volSave vid size dedup s1
      match rC.result with
      | .error _ =>
        snap_fail vid view_name connector "create volume failed" rC.state evs2
      | .ok _ =>
        match do_attach env.destAttachOk vol_name connector rC.state with
        | (sE, .error _) =>
          snap_fail vid view_name connector "attach volume failed" sE evs2
        | (s2, .ok _) =>
          let evs3 := evs2 ++ [Event.attach vol_name host_name]
          if env.destConnectOk then
            let evs4 := evs3 ++ [Event.connectDev vol_name]
            if env.copyOk then
              let evs5 := evs4 ++
                [Event.copyData view_name vol_name, Event.disconnect]
              let t1 := (terminate_connection (.byId vid) connector s2).state
              let t2 :=
                (terminate_connection (.handle view_name) connector t1).state
              ⟨deleteSnapFirst t2 view_name, evs5, .ok ()⟩
            else snap_fail vid view_name connector "copy failed" s2 evs4
          else snap_fail vid view_name connector "connect volume failed" s2 evs3
    else snap_fail vid view_name connector "connect view failed" s1 evs1

/-- `create_volume_from_snapshot`: search the source snapshot (fail fast if
absent), create the exposable view from it (fail fast if this save fails),
then run the attach/create/copy sequence with its cleanup handler. -/
def create_volume_from_snapshot (env : FlowEnv) (vid : String) (size : Nat)
    (dedup : Bool) (sid : String) (connector : List (String × String))
    (s : ArrayState) : DriverResult Unit :=
  let snap_name := get_snap_name sid
  let view_name := get_view_name vid
  let vol_name := get_volume_name vid
  if (searchSnaps s snap_name).length != 0 then
    match env.viewSave with
    | .failClean => ⟨s, [], .error (.driver "view save failed")⟩
    | .failCreated =>
      ⟨addSnap s ⟨view_name, snap_name, true⟩, [],
        .error (.driver "view save failed")⟩
    | .ok =>
      snap_try env vid size dedup view_name vol_name connector
        (addSnap s ⟨view_name, snap_name, true⟩)
  else ⟨s, [], .error (.driver "snapshot search failed")⟩

/-- The `except` block of `create_cloned_volume`: disconnect both
attachments, terminate the source's connection, terminate the
destination's connection, delete the partially created destination
volume, and re-raise as the driver exception. -/
def clone_fail (vid src_vid : String) (connector : List (String × String))
    (msg : String) (sE : ArrayState) (evs : List Event) : DriverResult Unit :=
  let s1 := (terminate_connection (.byId src_vid) connector sE).state
  let s2 := (terminate_connection (.byId vid) connector s1).state
  let s3 := (delete_volume vid s2).state
  ⟨s3, evs ++ [.disconnect], .error (.driver msg)⟩

/-- `create_cloned_volume`: refuse when the source volume has any mapping
(`search("mappings", volume=src_vol)` over the hits of the source-name
search); otherwise attach the source, create the destination volume, attach
it, copy the blocks, then disconnect and terminate both connections. -/
def create_cloned_volume (env : FlowEnv) (vid : String) (size : Nat)
    (dedup : Bool) (src_vid : String) (connector : List (String × String))
    (s : ArrayState) : DriverResult Unit :=
  let src_name := get_volume_name src_vid
  let vol_name := get_volume_name vid
  let host_name := get_initiator_host_name connector
  let src_vol := searchVolumes s src_name
  let src_map := s.mappings.filter
    (fun m => src_vol.any (fun v => v.name == m.volume))
  if src_map.length != 0 then
    ⟨s, [], .error (.driver "clone of an attached volume is not supported")⟩
  else
    match do_attach env.srcAttachOk src_name connector s with
    | (sE, .error _) => clone_fail vid src_vid connector "attach source failed" sE []
    | (s1, .ok _) =>
      let evs1 := [Event.attach src_name host_name]
      if env.srcConnectOk then
        let evs2 := evs1 ++ [Event.connectDev src_name]
        let rC := create_volume env.vgSave env.volSave vid size dedup s1
        match rC.result with
        | .error _ =>
          clone_fail vid src_vid connector "create volume failed" rC.state evs2
        | .ok _ =>
          match do_attach env.destAttachOk vol_name connector rC.state with
          | (sE, .error _) =>
            clone_fail vid src_vid connector "attach volume failed" sE evs2
          | (s2, .ok _) =>
            let evs3 := evs2 ++ [Event.attach vol_name host_name]
            if env.destConnectOk then
              let evs4 := evs3 ++ [Event.connectDev vol_name]
              if env.copyOk then
                let evs5 := evs4 ++
                  [Event.copyData src_name vol_name, Event.disconnect]
                let t1 := (terminate_connection (.byId vid) connector s2).state
                let t2 :=
                  (terminate_connection (.byId src_vid) connector t1).state
                ⟨t2, evs5, .ok ()⟩
              else clone_fail vid src_vid connector "copy failed" s2 evs4
            else clone_fail vid src_vid connector "connect volume failed" s2 evs3
      else clone_fail vid src_vid connector "connect source failed" s1 evs1

/-! ## Manage-existing size and stats reporting -/

/-- `manage_existing_get_size`: search the volume by the supplied source
name; `math.ceil(vol.size / units.Mi)` under Python 2 semantics, where `/`
on integers is floor division and `math.ceil` of an integer returns it
unchanged. -/
def manage_existing_get_size (source_name : String) (s : ArrayState) :
    Except KErr Nat :=
  match searchVolumes s source_name with
  | vol :: _ => .ok (vol.size / Mi)
  | [] => .error (.invalidRef "Unable to get size of manage volume.")

/-- Modelled from the spec, for comparison with the source: "return size
converted to the orchestrator's capacity unit, rounded up to the next whole
unit". -/
def spec_get_size_units (size : Nat) : Nat := (size + Mi - 1) / Mi

structure Config where
  auto_calc_max_oversubscription_ratio : Bool
  max_over_subscription_ratio : Rat
deriving DecidableEq, Repr

/-- The `system/capacity` singleton fields `update_volume_stats` reads. -/
structure SysCapacity where
  free : Int
  total : Int
  provisioned : Int
  provisioned_volumes : Int
deriving DecidableEq, Repr

structure VolumeStats where
  free_capacity_gb : Int
  total_capacity_gb : Int
  total_volumes : Int
  provisioned_capacity_gb : Int
  max_oversubscription_ratio : Rat
  thin_provisioning_support : Bool
  thick_provisioning_support : Bool
deriving DecidableEq, Repr

/-- `update_volume_stats`: the live ratio
`provisioned_volumes / float(total - free)` is used exactly when the
auto-calculation option is on, `cap.provisioned` is truthy and
`cap.total - cap.free` is non-zero; otherwise the configured
`max_over_subscription_ratio`.  Capacity figures in GB use Python 2 integer
division by `units.Mi` (floor). -/
def update_volume_stats (conf : Config) (cap : SysCapacity) (s : ArrayState) :
    VolumeStats :=
  let ratio : Rat :=
    if conf.auto_calc_max_oversubscription_ratio = true ∧
        cap.provisioned ≠ 0 ∧ cap.total - cap.free ≠ 0 then
      (cap.provisioned_volumes : Rat) / ((cap.total - cap.free : Int) : Rat)
    else conf.max_over_subscription_ratio
  { free_capacity_gb := Int.fdiv cap.free (Mi : Int)
    total_capacity_gb := Int.fdiv cap.total (Mi : Int)
    total_volumes := (s.volumes.length : Int) - 1
    provisioned_capacity_gb := Int.fdiv cap.provisioned_volumes (Mi : Int)
    max_oversubscription_ratio := ratio
    thin_provisioning_support := true
    thick_provisioning_support := false }

/-! ## Helper lemmas about the operations -/

theorem searchVolumes_eq_of_volumes {s t : ArrayState} (h : s.volumes = t.volumes)
    (n : String) : searchVolumes s n = searchVolumes t n := by
  simp [searchVolumes, h]

theorem searchVG_eq_of_vgs {s t : ArrayState} (h : s.volume_groups = t.volume_groups)
    (n : String) : searchVG s n = searchVG t n := by
  simp [searchVG, h]

theorem searchSnaps_eq_of_snaps {s t : ArrayState} (h : s.snapshots = t.snapshots)
    (n : String) : searchSnaps s n = searchSnaps t n := by
  simp [searchSnaps, h]

/-- `terminate_connection` touches only mappings and hosts. -/
theorem terminate_preserves (vref : VolumeRef)
    (connector : List (String × String)) (s : ArrayState) :
    (terminate_connection vref connector s).state.volumes = s.volumes ∧
    (terminate_connection vref connector s).state.volume_groups = s.volume_groups ∧
    (terminate_connection vref connector s).state.snapshots = s.snapshots := by
  unfold terminate_connection
  dsimp only
  repeat' split
  all_goals simp [deleteHostByName, deleteMappingFirst]

/-- `do_attach` on a successful attach touches only hosts and mappings. -/
theorem do_attach_ok (vol_name : String) (connector : List (String × String))
    (s : ArrayState) :
    (do_attach true vol_name connector s).1.volumes = s.volumes ∧
    (do_attach true vol_name connector s).1.volume_groups = s.volume_groups ∧
    (do_attach true vol_name connector s).1.snapshots = s.snapshots ∧
    (do_attach true vol_name connector s).2 = .ok () := by
  by_cases h : ((searchHosts s (get_initiator_host_name connector)).length != 0) = true <;>
    simp [do_attach, h, addMapping, addHost]

theorem do_attach_fail (vol_name : String) (connector : List (String × String))
    (s : ArrayState) :
    do_attach false vol_name connector s = (s, .error (.driver "attach failed")) := rfl

/-- `deleteSnapFirst` touches only snapshots. -/
theorem deleteSnapFirst_preserves (s : ArrayState) (n : String) :
    (deleteSnapFirst s n).volumes = s.volumes ∧
    (deleteSnapFirst s n).volume_groups = s.volume_groups := by
  simp [deleteSnapFirst]

/-- `create_volume` with both saves succeeding. -/
theorem create_volume_ok_eq (vid : String) (size : Nat) (dedup : Bool)
    (s : ArrayState) :
    create_volume .ok .ok vid size dedup s =
      ⟨addVolume (addVG s ⟨get_volume_group_name vid, 0, dedup⟩)
          ⟨get_volume_name vid, size * Mi, get_volume_group_name vid⟩,
        [], .ok ()⟩ := rfl

/-- `create_volume` when the volume-group save fails without creating the
group: the cleanup search finds nothing, the state is untouched. -/
theorem create_volume_vg_failClean (fvol : SaveOutcome) (vid : String)
    (size : Nat) (dedup : Bool) (s : ArrayState)
    (hvg : searchVG s (get_volume_group_name vid) = []) :
    create_volume .failClean fvol vid size dedup s =
      ⟨s, [], .error (.driver "volume group save failed")⟩ := by
  have h0 : (searchVG s (get_volume_group_name vid)).length = 0 := by
    rw [hvg]; rfl
  simp [create_volume, h0]

/-- `create_volume` when the volume-group save raises after creating the
group: the cleanup finds it by name and deletes it (cascading to any
volume in that group). -/
theorem create_volume_vg_failCreated (fvol : SaveOutcome) (vid : String)
    (size : Nat) (dedup : Bool) (s : ArrayState)
    (hvg : searchVG s (get_volume_group_name vid) = []) :
    create_volume .failCreated fvol vid size dedup s =
      ⟨{ s with volumes := s.volumes.filter (fun v => !(v.volume_group == get_volume_group_name vid)) },
        [], .error (.driver "volume group save failed")⟩ := by
  have hvg' : s.volume_groups.filter
      (fun g => g.name == get_volume_group_name vid) = [] := hvg
  have hdel : delFirst (fun g : VolumeGroup => g.name == get_volume_group_name vid)
      (s.volume_groups ++ [⟨get_volume_group_name vid, 0, dedup⟩]) =
        s.volume_groups :=
    delFirst_append_singleton _ _ _ hvg' (by simp)
  simp [create_volume, searchVG, deleteVGByName, addVG, addVolume, List.filter_append, hvg', hdel]

/-- `create_volume` when the group is created but the volume save fails
without creating the volume. -/
theorem create_volume_vol_failClean (vid : String) (size : Nat) (dedup : Bool)
    (s : ArrayState)
    (hvg : searchVG s (get_volume_group_name vid) = []) :
    create_volume .ok .failClean vid size dedup s =
      ⟨{ s with volumes := s.volumes.filter (fun v => !(v.volume_group == get_volume_group_name vid)) },
        [], .error (.driver "volume save failed")⟩ := by
  have hvg' : s.volume_groups.filter
      (fun g => g.name == get_volume_group_name vid) = [] := hvg
  have hdel : delFirst (fun g : VolumeGroup => g.name == get_volume_group_name vid)
      (s.volume_groups ++ [⟨get_volume_group_name vid, 0, dedup⟩]) =
        s.volume_groups :=
    delFirst_append_singleton _ _ _ hvg' (by simp)
  simp [create_volume, searchVG, deleteVGByName, addVG, addVolume, List.filter_append, hvg', hdel]

/-- `create_volume` when the group is created and the volume save raises
after creating the volume: the group deletion cascades the partial volume
away. -/
theorem create_volume_vol_failCreated (vid : String) (size : Nat) (dedup : Bool)
    (s : ArrayState)
    (hvg : searchVG s (get_volume_group_name vid) = []) :
    create_volume .ok .failCreated vid size dedup s =
      ⟨{ s with volumes := s.volumes.filter (fun v => !(v.volume_group == get_volume_group_name vid)) },
        [], .error (.driver "volume save failed")⟩ := by
  have hvg' : s.volume_groups.filter
      (fun g => g.name == get_volume_group_name vid) = [] := hvg
  have hdel : delFirst (fun g : VolumeGroup => g.name == get_volume_group_name vid)
      (s.volume_groups ++ [⟨get_volume_group_name vid, 0, dedup⟩]) =
        s.volume_groups :=
    delFirst_append_singleton _ _ _ hvg' (by simp)
  simp [create_volume, searchVG, deleteVGByName, addVG, addVolume, List.filter_append, hvg', hdel]

/-- `delete_volume` leaves a state without the derived-name volume and
group, never raises, and touches nothing else. -/
theorem delete_volume_clears (vid : String) (s : ArrayState)
    (hvol : (searchVolumes s (get_volume_name vid)).length ≤ 1)
    (hvg : (searchVG s (get_volume_group_name vid)).length ≤ 1) :
    (delete_volume vid s).result = .ok () ∧
    searchVolumes (delete_volume vid s).state (get_volume_name vid) = [] ∧
    searchVG (delete_volume vid s).state (get_volume_group_name vid) = [] ∧
    (delete_volume vid s).state.snapshots = s.snapshots ∧
    (delete_volume vid s).state.hosts = s.hosts ∧
    (delete_volume vid s).state.mappings = s.mappings := by
  obtain ⟨vgs, vols, snaps, hosts, maps⟩ := s
  simp only [searchVolumes, searchVG] at hvol hvg
  simp only [delete_volume, searchVolumes, searchVG, deleteVolumeFirst, deleteVGByName]
  by_cases h1 : ((List.filter (fun v : Volume => v.name == get_volume_name vid) vols).length != 0) = true
  · rw [if_pos h1]
    by_cases h2 : ((List.filter (fun g : VolumeGroup => g.name == get_volume_group_name vid) vgs).length != 0) = true
    · rw [if_pos h2]
      exact ⟨(by trivial),
        filter_nil_of_sublist _ (List.filter_sublist _) (filter_delFirst_nil _ _ hvol),
        filter_delFirst_nil _ _ hvg, rfl, rfl, rfl⟩
    · rw [if_neg h2]
      refine ⟨(by trivial), filter_delFirst_nil _ _ hvol, ?_, rfl, rfl, rfl⟩
      simpa [bne_iff_ne, List.length_eq_zero] using h2
  · rw [if_neg h1]
    have h1' : List.filter (fun v : Volume => v.name == get_volume_name vid) vols = [] := by
      simpa [bne_iff_ne, List.length_eq_zero] using h1
    by_cases h2 : ((List.filter (fun g : VolumeGroup => g.name == get_volume_group_name vid) vgs).length != 0) = true
    · rw [if_pos h2]
      exact ⟨(by trivial), filter_nil_of_sublist _ (List.filter_sublist _) h1',
        filter_delFirst_nil _ _ hvg, rfl, rfl, rfl⟩
    · rw [if_neg h2]
      refine ⟨(by trivial), h1', ?_, rfl, rfl, rfl⟩
      simpa [bne_iff_ne, List.length_eq_zero] using h2

/-! ## Host-name derivation lemmas -/

theorem replChar_valid (c : Char) : validHostChar (replChar c) = true := by
  unfold replChar
  by_cases h : validHostChar c
  · rw [if_pos h]; exact h
  · rw [if_neg h]; decide

theorem replChar_replChar (c : Char) : replChar (replChar c) = replChar c := by
  unfold replChar
  by_cases h : validHostChar c
  · rw [if_pos h, if_pos h]
  · rw [if_neg h, if_pos (by decide : validHostChar '_' = true)]

theorem derive_host_name_len (s : String) : (derive_host_name s).length ≤ 32 := by
  have h : (derive_host_name s).length = ((s.toList.map replChar).take 32).length := rfl
  rw [h, List.length_take]
  exact min_le_left _ _

theorem derive_host_name_of_derived (s : String) :
    derive_host_name (derive_host_name s) = derive_host_name s := by
  unfold derive_host_name
  have h1 : (List.asString ((s.toList.map replChar).take 32)).toList
      = (s.toList.map replChar).take 32 := rfl
  rw [h1, List.map_take, List.map_map]
  have h2 : replChar ∘ replChar = replChar := funext replChar_replChar
  rw [h2, List.take_take]
  norm_num

/-- Deleting the first `p`-element decreases the count of `q`-elements by
exactly one when every `p`-element is a `q`-element and some `p`-element is
present. -/
theorem length_filter_delFirst (p q : α → Bool) (l : List α)
    (hpq : ∀ a, p a = true → q a = true) (hne : l.filter p ≠ []) :
    (List.filter q (delFirst p l)).length + 1 = (l.filter q).length := by
  induction l with
  | nil => simp at hne
  | cons x xs ih =>
    by_cases hx : p x
    · simp [delFirst, hx, List.filter_cons, hpq x hx]
    · have hne' : xs.filter p ≠ [] := by
        simpa [List.filter_cons, hx] using hne
      have ihx := ih hne'
      simp only [delFirst, if_neg hx, List.filter_cons]
      by_cases hqx : q x <;> simp [hqx] <;> omega

/-- `delete_volume` on a state without the derived-name volume and group is
a no-op. -/
theorem delete_volume_noop (vid : String) (s : ArrayState)
    (hvol : searchVolumes s (get_volume_name vid) = [])
    (hvg : searchVG s (get_volume_group_name vid) = []) :
    delete_volume vid s = ⟨s, [], .ok ()⟩ := by
  unfold delete_volume
  simp [hvol, hvg]

/-- What the `except` handler of `create_volume_from_snapshot` guarantees:
whatever the array state `sE` at the exception, afterwards the view
snapshot, the destination volume and the destination volume group are all
absent (given the array's unique-name bounds at `sE`), and the result is
the driver exception. -/
theorem snap_fail_spec (vid view_name : String)
    (connector : List (String × String)) (msg : String) (sE : ArrayState)
    (evs : List Event)
    (hsn : (searchSnaps sE view_name).length ≤ 1)
    (hvol : (searchVolumes sE (get_volume_name vid)).length ≤ 1)
    (hvg : (searchVG sE (get_volume_group_name vid)).length ≤ 1) :
    isDriverErr (snap_fail vid view_name connector msg sE evs).result = true ∧
    searchSnaps (snap_fail vid view_name connector msg sE evs).state view_name = [] ∧
    searchVolumes (snap_fail vid view_name connector msg sE evs).state
      (get_volume_name vid) = [] ∧
    searchVG (snap_fail vid view_name connector msg sE evs).state
      (get_volume_group_name vid) = [] := by
  have hunfold : snap_fail vid view_name connector msg sE evs =
      ⟨(delete_volume vid (deleteSnapFirst
          (terminate_connection (.byId vid) connector
            (terminate_connection (.handle view_name) connector sE).state).state
          view_name)).state, evs ++ [.disconnect], .error (.driver msg)⟩ := rfl
  rw [hunfold]
  obtain ⟨e1v, e1g, e1s⟩ := terminate_preserves (.handle view_name) connector sE
  obtain ⟨e2v, e2g, e2s⟩ := terminate_preserves (.byId vid) connector
    (terminate_connection (.handle view_name) connector sE).state
  generalize hB : (terminate_connection (.byId vid) connector
      (terminate_connection (.handle view_name) connector sE).state).state = sB at e2v e2g e2s ⊢
  have hBv : sB.volumes = sE.volumes := e2v.trans e1v
  have hBg : sB.volume_groups = sE.volume_groups := e2g.trans e1g
  have hBs : sB.snapshots = sE.snapshots := e2s.trans e1s
  have hcount : (List.filter (fun t : Snapshot => t.short_name == view_name)
      sB.snapshots).length ≤ 1 := by
    rw [hBs]; exact hsn
  have hCs : searchSnaps (deleteSnapFirst sB view_name) view_name = [] :=
    filter_delFirst_nil _ _ hcount
  have hCv : (searchVolumes (deleteSnapFirst sB view_name)
      (get_volume_name vid)).length ≤ 1 := by
    have h := searchVolumes_eq_of_volumes
      (show (deleteSnapFirst sB view_name).volumes = sE.volumes from hBv)
      (get_volume_name vid)
    rw [h]; exact hvol
  have hCg : (searchVG (deleteSnapFirst sB view_name)
      (get_volume_group_name vid)).length ≤ 1 := by
    have h := searchVG_eq_of_vgs
      (show (deleteSnapFirst sB view_name).volume_groups = sE.volume_groups from hBg)
      (get_volume_group_name vid)
    rw [h]; exact hvg
  obtain ⟨-, hdv, hdg, hds, -, -⟩ :=
    delete_volume_clears vid (deleteSnapFirst sB view_name) hCv hCg
  refine ⟨rfl, ?_, hdv, hdg⟩
  exact (searchSnaps_eq_of_snaps hds view_name).trans hCs

/-- Leaf form used for every failing step of the snapshot-restore saga. -/
theorem snap_fail_leaf (vid view_name : String)
    (connector : List (String × String)) (msg : String) (sE : ArrayState)
    (evs : List Event)
    (h1 : (searchSnaps sE view_name).length ≤ 1)
    (h2 : (searchVolumes sE (get_volume_name vid)).length ≤ 1)
    (h3 : (searchVG sE (get_volume_group_name vid)).length ≤ 1) :
    searchSnaps (snap_fail vid view_name connector msg sE evs).state view_name = [] ∧
    ((snap_fail vid view_name connector msg sE evs).result ≠ .ok () →
      isDriverErr (snap_fail vid view_name connector msg sE evs).result = true ∧
      searchVolumes (snap_fail vid view_name connector msg sE evs).state
        (get_volume_name vid) = [] ∧
      searchVG (snap_fail vid view_name connector msg sE evs).state
        (get_volume_group_name vid) = []) := by
  obtain ⟨hd, hsn, hvo, hvg⟩ := snap_fail_spec vid view_name connector msg sE evs h1 h2 h3
  exact ⟨hsn, fun _ => ⟨hd, hvo, hvg⟩⟩

/-! ## Claim theorems -/

/-- C1: with fresh derived names, `create_volume` either succeeds and both
the volume group and the volume exist afterwards, or fails in either save
step, in which case the cleanup leaves neither entity on the array and the
failure is re-raised as the single driver-level error. -/
theorem claim_create_volume_atomic (fvg fvol : SaveOutcome) (vid : String)
    (size : Nat) (dedup : Bool) (s : ArrayState)
    (hvg : searchVG s (get_volume_group_name vid) = [])
    (hvol : searchVolumes s (get_volume_name vid) = []) :
    (fvg = .ok ∧ fvol = .ok →
      (create_volume fvg fvol vid size dedup s).result = .ok () ∧
      searchVG (create_volume fvg fvol vid size dedup s).state
        (get_volume_group_name vid) ≠ [] ∧
      searchVolumes (create_volume fvg fvol vid size dedup s).state
        (get_volume_name vid) ≠ []) ∧
    (¬ (fvg = .ok ∧ fvol = .ok) →
      isDriverErr (create_volume fvg fvol vid size dedup s).result = true ∧
      searchVG (create_volume fvg fvol vid size dedup s).state
        (get_volume_group_name vid) = [] ∧
      searchVolumes (create_volume fvg fvol vid size dedup s).state
        (get_volume_name vid) = []) := by
  have hvol' : List.filter (fun v : Volume => v.name == get_volume_name vid)
      s.volumes = [] := hvol
  cases fvg with
  | failClean =>
    rw [create_volume_vg_failClean fvol vid size dedup s hvg]
    refine ⟨fun h => absurd h.1 (by simp), fun _ => ⟨rfl, hvg, hvol⟩⟩
  | failCreated =>
    rw [create_volume_vg_failCreated fvol vid size dedup s hvg]
    refine ⟨fun h => absurd h.1 (by simp), fun _ => ⟨rfl, hvg, ?_⟩⟩
    exact filter_nil_of_sublist _ (List.filter_sublist _) hvol'
  | ok =>
    cases fvol with
    | ok =>
      rw [create_volume_ok_eq vid size dedup s]
      refine ⟨fun _ => ⟨rfl, ?_, ?_⟩, fun h => absurd ⟨rfl, rfl⟩ h⟩
      · simp [searchVG, addVG, addVolume, List.filter_append]
      · simp [searchVolumes, addVG, addVolume, List.filter_append]
    | failClean =>
      rw [create_volume_vol_failClean vid size dedup s hvg]
      refine ⟨fun h => absurd h.2 (by simp), fun _ => ⟨rfl, hvg, ?_⟩⟩
      exact filter_nil_of_sublist _ (List.filter_sublist _) hvol'
    | failCreated =>
      rw [create_volume_vol_failCreated vid size dedup s hvg]
      refine ⟨fun h => absurd h.2 (by simp), fun _ => ⟨rfl, hvg, ?_⟩⟩
      exact filter_nil_of_sublist _ (List.filter_sublist _) hvol'

/-- C1 witness: both saves succeeding return ok; a failing volume save on a
fresh array yields the driver error. -/
theorem claim_create_volume_atomic_witness :
    (create_volume .ok .ok "w" 1 true empty_state).result = .ok () ∧
    isDriverErr (create_volume .ok .failClean "w" 1 true empty_state).result = true := by
  have hvg : searchVG empty_state (get_volume_group_name "w") = [] := by decide
  have hvol : searchVolumes empty_state (get_volume_name "w") = [] := by decide
  have h1 := (claim_create_volume_atomic .ok .ok "w" 1 true empty_state hvg hvol).1
    ⟨rfl, rfl⟩
  have h2 := (claim_create_volume_atomic .ok .failClean "w" 1 true empty_state
    hvg hvol).2 (by simp)
  exact ⟨h1.1, h2.1⟩

/-- C7: `delete_volume` never raises; when the derived-name volume and
group are absent it changes nothing; and running it twice leaves exactly
the state of the first run, again without raising. -/
theorem claim_delete_volume_idempotent (vid : String) (s : ArrayState)
    (hvol : (searchVolumes s (get_volume_name vid)).length ≤ 1)
    (hvg : (searchVG s (get_volume_group_name vid)).length ≤ 1) :
    (delete_volume vid s).result = .ok () ∧
    (searchVolumes s (get_volume_name vid) = [] →
      searchVG s (get_volume_group_name vid) = [] →
      (delete_volume vid s).state = s) ∧
    delete_volume vid (delete_volume vid s).state =
      ⟨(delete_volume vid s).state, [], .ok ()⟩ := by
  obtain ⟨hok, habs1, habs2, -, -, -⟩ := delete_volume_clears vid s hvol hvg
  refine ⟨hok, ?_, delete_volume_noop vid _ habs1 habs2⟩
  intro h1 h2
  rw [delete_volume_noop vid s h1 h2]

def c7_state : ArrayState :=
  ⟨[⟨"cvg-x", 0, true⟩], [⟨"cv-x", 1048576, "cvg-x"⟩], [], [], []⟩

/-- C7 witness on a one-volume array. -/
theorem claim_delete_volume_idempotent_witness :
    (delete_volume "x" c7_state).result = .ok () ∧
    delete_volume "x" (delete_volume "x" c7_state).state =
      ⟨(delete_volume "x" c7_state).state, [], .ok ()⟩ := by
  have h := claim_delete_volume_idempotent "x" c7_state (by decide) (by decide)
  exact ⟨h.1, h.2.2⟩

/-- C3: when the source volume exists and has at least one mapping,
`create_cloned_volume` raises the driver error before doing anything: the
array state is untouched and no external action (attach, connect, copy) is
attempted. -/
theorem claim_clone_rejects_attached (env : FlowEnv) (vid : String)
    (size : Nat) (dedup : Bool) (src_vid : String)
    (connector : List (String × String)) (s : ArrayState)
    (hsrc : searchVolumes s (get_volume_name src_vid) ≠ [])
    (hmap : ∃ m ∈ s.mappings, m.volume = get_volume_name src_vid) :
    create_cloned_volume env vid size dedup src_vid connector s =
      ⟨s, [], .error (.driver "clone of an attached volume is not supported")⟩ := by
  obtain ⟨m, hm, hmv⟩ := hmap
  obtain ⟨v, hv⟩ := List.exists_mem_of_ne_nil _ hsrc
  have hvn : (v.name == get_volume_name src_vid) = true := (List.mem_filter.1 hv).2
  have hmem : m ∈ s.mappings.filter
      (fun m => (searchVolumes s (get_volume_name src_vid)).any
        (fun v => v.name == m.volume)) := by
    refine List.mem_filter.2 ⟨hm, ?_⟩
    refine List.any_eq_true.2 ⟨v, hv, ?_⟩
    rw [hmv]
    exact hvn
  have hne : s.mappings.filter
      (fun m => (searchVolumes s (get_volume_name src_vid)).any
        (fun v => v.name == m.volume)) ≠ [] :=
    List.ne_nil_of_mem hmem
  have hc : ((s.mappings.filter
      (fun m => (searchVolumes s (get_volume_name src_vid)).any
        (fun v => v.name == m.volume))).length != 0) = true := by
    simpa [bne_iff_ne, List.length_eq_zero] using hne
  simp only [create_cloned_volume]
  rw [if_pos hc]

def c3_state : ArrayState :=
  ⟨[⟨"cvg-s", 0, true⟩], [⟨"cv-s", 1048576, "cvg-s"⟩], [], [⟨"h1"⟩],
    [⟨"cv-s", "h1"⟩]⟩

/-- C3 witness: one mapped source volume; the clone call leaves the state
unchanged, performs no external action, and raises the driver error. -/
theorem claim_clone_rejects_attached_witness :
    create_cloned_volume ⟨.ok, true, true, .ok, .ok, true, true, true⟩ "d" 1 true
      "s" [("host", "h1")] c3_state =
      ⟨c3_state, [], .error (.driver "clone of an attached volume is not supported")⟩ :=
  claim_clone_rejects_attached _ "d" 1 true "s" [("host", "h1")] c3_state
    (by decide) ⟨⟨"cv-s", "h1"⟩, by decide, rfl⟩

/-- C6: `terminate_connection` (volume given by id and existing on the
array) never raises; when the derived-name host exists, the mapping between
volume and host is gone afterwards and the host itself was deleted exactly
when it had no mappings beyond the targeted one; when the host is absent,
the state is untouched. -/
theorem claim_terminate_connection (vid : String)
    (connector : List (String × String)) (s : ArrayState)
    (hvol : searchVolumes s (get_volume_name vid) ≠ [])
    (hhost1 : (searchHosts s (get_initiator_host_name connector)).length ≤ 1)
    (hpair1 : (searchMappings s (get_volume_name vid)
        (get_initiator_host_name connector)).length ≤ 1) :
    (terminate_connection (.byId vid) connector s).result = .ok () ∧
    (searchHosts s (get_initiator_host_name connector) ≠ [] →
      searchMappings (terminate_connection (.byId vid) connector s).state
        (get_volume_name vid) (get_initiator_host_name connector) = [] ∧
      (searchHosts (terminate_connection (.byId vid) connector s).state
          (get_initiator_host_name connector) = [] ↔
        (hostMappings s (get_initiator_host_name connector)).length =
          (searchMappings s (get_volume_name vid)
            (get_initiator_host_name connector)).length)) ∧
    (searchHosts s (get_initiator_host_name connector) = [] →
      (terminate_connection (.byId vid) connector s).state = s) := by
  have hv : ((searchVolumes s (get_volume_name vid)).length != 0) = true := by
    simpa [bne_iff_ne, List.length_eq_zero] using hvol
  by_cases hh : searchHosts s (get_initiator_host_name connector) = []
  · have hhc : ¬ ((searchHosts s (get_initiator_host_name connector)).length != 0) = true := by
      simp [hh]
    simp only [terminate_connection, hv, if_true, if_neg hhc]
    exact ⟨by trivial, fun hcon => absurd hh hcon, fun _ => by trivial⟩
  · have hhc : ((searchHosts s (get_initiator_host_name connector)).length != 0) = true := by
      simpa [bne_iff_ne, List.length_eq_zero] using hh
    by_cases hp : searchMappings s (get_volume_name vid)
        (get_initiator_host_name connector) = []
    · have hpc : ¬ ((searchMappings s (get_volume_name vid)
          (get_initiator_host_name connector)).length != 0) = true := by
        simp [hp]
      by_cases hz : (hostMappings s (get_initiator_host_name connector)).length = 0
      · have hzc : ((hostMappings s (get_initiator_host_name connector)).length == 0) = true := by
          simp [hz]
        simp only [terminate_connection, hv, if_true, if_pos hhc, if_neg hpc, hzc]
        refine ⟨by trivial, fun _ => ⟨hp, ?_⟩, fun hcon => absurd hcon hh⟩
        exact iff_of_true (filter_delFirst_nil _ _ hhost1) (by simp [hz, hp])
      · have hzc : ¬ ((hostMappings s (get_initiator_host_name connector)).length == 0) = true := by
          simp [hz]
        simp only [terminate_connection, hv, if_true, if_pos hhc, if_neg hpc,
          if_neg hzc]
        refine ⟨by trivial, fun _ => ⟨hp, ?_⟩, fun hcon => absurd hcon hh⟩
        refine iff_of_false hh ?_
        rw [hp]
        simpa using hz
    · have hpc : ((searchMappings s (get_volume_name vid)
          (get_initiator_host_name connector)).length != 0) = true := by
        simpa [bne_iff_ne, List.length_eq_zero] using hp
      have hLp : (searchMappings s (get_volume_name vid)
          (get_initiator_host_name connector)).length = 1 := by
        have := List.length_pos.2 hp
        omega
      have hd : (hostMappings (deleteMappingFirst s (get_volume_name vid)
            (get_initiator_host_name connector))
            (get_initiator_host_name connector)).length + 1 =
          (hostMappings s (get_initiator_host_name connector)).length :=
        length_filter_delFirst _ _ s.mappings
          (fun m hm => by
            simp only [Bool.and_eq_true] at hm
            exact hm.2) hp
      by_cases hz : (hostMappings (deleteMappingFirst s (get_volume_name vid)
          (get_initiator_host_name connector))
          (get_initiator_host_name connector)).length = 0
      · have hzc : ((hostMappings (deleteMappingFirst s (get_volume_name vid)
            (get_initiator_host_name connector))
            (get_initiator_host_name connector)).length == 0) = true := by
          simp [hz]
        simp only [terminate_connection, hv, if_true, if_pos hhc, if_pos hpc, hzc]
        refine ⟨by trivial, fun _ => ⟨filter_delFirst_nil _ _ hpair1, ?_⟩,
          fun hcon => absurd hcon hh⟩
        refine iff_of_true (filter_delFirst_nil _ _ hhost1) ?_
        omega
      · have hzc : ¬ ((hostMappings (deleteMappingFirst s (get_volume_name vid)
            (get_initiator_host_name connector))
            (get_initiator_host_name connector)).length == 0) = true := by
          simp [hz]
        simp only [terminate_connection, hv, if_true, if_pos hhc, if_pos hpc,
          if_neg hzc]
        refine ⟨by trivial, fun _ => ⟨filter_delFirst_nil _ _ hpair1, ?_⟩,
          fun hcon => absurd hcon hh⟩
        refine iff_of_false hh ?_
        omega

def c6_state : ArrayState :=
  ⟨[], [⟨"cv-v", 1048576, "cvg-v"⟩], [], [⟨"myhost"⟩], [⟨"cv-v", "myhost"⟩]⟩

/-- C6 witness: a host with exactly the targeted mapping loses both the
mapping and the host. -/
theorem claim_terminate_connection_witness :
    (terminate_connection (.byId "v") [("host", "myhost")] c6_state).result = .ok () ∧
    searchMappings (terminate_connection (.byId "v") [("host", "myhost")] c6_state).state
      "cv-v" "myhost" = [] ∧
    searchHosts (terminate_connection (.byId "v") [("host", "myhost")] c6_state).state
      "myhost" = [] := by
  have h := claim_terminate_connection "v" [("host", "myhost")] c6_state
    (by decide) (by decide) (by decide)
  have h2 := h.2.1 (by decide)
  exact ⟨h.1, h2.1, h2.2.mpr (by decide)⟩

/-- C8: the derived initiator host name replaces every character outside
`[0-9a-zA-Z_-]` with `_` and truncates to 32 characters, so its length is
always at most 32, and the derivation is idempotent. -/
theorem claim_host_name_bounded_idem (s : String) :
    (derive_host_name s).length ≤ 32 ∧
    derive_host_name (derive_host_name s) = derive_host_name s :=
  ⟨derive_host_name_len s, derive_host_name_of_derived s⟩

/-- C10: a connector-properties structure without a `host` field yields the
empty host name (via `connector.get('host', '')`) instead of raising, and
`terminate_connection` then takes the warning branch (array state unchanged,
no error) whenever no host carries the empty name. -/
theorem claim_missing_host_empty_name (connector : List (String × String))
    (h : dict_get connector "host" = none) :
    get_initiator_host_name connector = "" ∧
    ∀ (vref : VolumeRef) (s : ArrayState),
      searchHosts s "" = [] →
      terminate_connection vref connector s = ⟨s, [], .ok ()⟩ := by
  have hname : get_initiator_host_name connector = "" := by
    unfold get_initiator_host_name
    rw [h]
    rfl
  refine ⟨hname, ?_⟩
  intro vref s hs
  unfold terminate_connection
  simp [hname, hs]

/-- C10 witness at a connector carrying only an `ip` key. -/
theorem claim_missing_host_empty_name_witness :
    get_initiator_host_name [("ip", "10.0.0.1")] = "" ∧
    terminate_connection (.byId "v1") [("ip", "10.0.0.1")]
        ⟨[], [], [], [⟨"other"⟩], []⟩ =
      ⟨⟨[], [], [], [⟨"other"⟩], []⟩, [], .ok ()⟩ := by
  have h := claim_missing_host_empty_name [("ip", "10.0.0.1")] (by decide)
  exact ⟨h.1, h.2 (.byId "v1") ⟨[], [], [], [⟨"other"⟩], []⟩ (by decide)⟩

/-- The array state used to exhibit the `manage_existing_get_size`
rounding behaviour: one volume of 1.5 capacity units (1572864 = 1.5 * Mi). -/
def manage_demo_state : ArrayState :=
  ⟨[⟨"kvg", 0, true⟩], [⟨"kvol", 1572864, "kvg"⟩], [], [], []⟩

/-- C5: on a volume of 1.5 capacity units the source's
`math.ceil(vol.size / units.Mi)` returns 1, because Python 2 `/` on
integers floors before `math.ceil` (identity on integers) is applied;
the spec's "rounded up to the next whole unit" demands 2. -/
theorem claim_manage_size_floors :
    manage_existing_get_size "kvol" manage_demo_state = .ok 1 ∧
    spec_get_size_units 1572864 = 2 := by
  constructor
  · rfl
  · rfl

def c9_conf : Config := ⟨true, 20⟩

/-- Capacity answer with zero `provisioned` but non-zero free capacity and
non-zero allocated capacity. -/
def c9_cap : SysCapacity := ⟨4, 10, 0, 12⟩

/-- C9 counterexample: with auto-calculation enabled and free capacity
non-zero (free = 4), the code still reports the configured ratio (20), not
the live ratio (12 / 6 = 2), because `cap.provisioned` is zero — the live
ratio is not used "exactly when the toggle is enabled and free capacity is
non-zero". -/
theorem claim_stats_ratio_counterexample :
    c9_conf.auto_calc_max_oversubscription_ratio = true ∧
    c9_cap.free ≠ 0 ∧
    (update_volume_stats c9_conf c9_cap empty_state).max_oversubscription_ratio ≠
      (c9_cap.provisioned_volumes : Rat) /
        ((c9_cap.total - c9_cap.free : Int) : Rat) := by
  refine ⟨rfl, by decide, ?_⟩
  norm_num [update_volume_stats, c9_conf, c9_cap]

/-- C9 amended: the live ratio `provisioned_volumes / (total - free)` is
reported exactly when the auto-calculation toggle is on, `cap.provisioned`
is non-zero and the allocated capacity `total - free` is non-zero; in every
other case the configured default ratio is reported. -/
theorem claim_stats_ratio_amended (conf : Config) (cap : SysCapacity)
    (s : ArrayState) :
    (conf.auto_calc_max_oversubscription_ratio = true → cap.provisioned ≠ 0 →
      cap.total - cap.free ≠ 0 →
      (update_volume_stats conf cap s).max_oversubscription_ratio =
        (cap.provisioned_volumes : Rat) / ((cap.total - cap.free : Int) : Rat)) ∧
    (¬ (conf.auto_calc_max_oversubscription_ratio = true ∧ cap.provisioned ≠ 0 ∧
        cap.total - cap.free ≠ 0) →
      (update_volume_stats conf cap s).max_oversubscription_ratio =
        conf.max_over_subscription_ratio) := by
  constructor
  · intro h1 h2 h3
    unfold update_volume_stats
    rw [if_pos ⟨h1, h2, h3⟩]
  · intro h
    unfold update_volume_stats
    rw [if_neg h]

/-- C9 amended witness: live figures 12 provisioned volumes over 6
allocated units give ratio 2. -/
theorem claim_stats_ratio_amended_witness :
    (update_volume_stats ⟨true, 20⟩ ⟨4, 10, 7, 12⟩ empty_state).max_oversubscription_ratio = 2 := by
  have h := (claim_stats_ratio_amended ⟨true, 20⟩ ⟨4, 10, 7, 12⟩ empty_state).1
    rfl (by decide) (by decide)
  rw [h]
  norm_num

/-- C2: against an array that always answers HTTP 400 with a recognized
busy code, the request is attempted exactly `MAX_K2_RETRY = 5` times and
the caller then observes the non-transient array error, not the transient
one; an HTTP error outside the recognized set is never retried and
propagates on the first attempt. -/
theorem claim_transport_retry_bound (body : String)
    (hb : should_retry 400 body = true)
    (code2 : Nat) (body2 : String)
    (h2 : should_retry code2 body2 = false) :
    ((transport (fun _ => .httpError 400 body)).attempts = MAX_K2_RETRY ∧
      (transport (fun _ => .httpError 400 body)).outcome =
        .error (.arrayHttp 400 body)) ∧
    (∀ oracle : Nat → ArrayReply, oracle 1 = .httpError code2 body2 →
      (transport oracle).attempts = 1 ∧
      (transport oracle).outcome = .error (.arrayHttp code2 body2)) := by
  have hreq : request_once (ArrayReply.httpError 400 body) =
      .error (.retryable body) := by
    simp [request_once, hb]
  have hall : ∀ k a, retry_call (fun _ => ArrayReply.httpError 400 body) a k =
      ⟨a + k, .error (.arrayHttp 400 body)⟩ := by
    intro k
    induction k with
    | zero => intro a; simp [retry_call, hreq]
    | succ n ih =>
      intro a
      simp only [retry_call, hreq]
      rw [ih (a + 1)]
      congr 1
      omega
  constructor
  · constructor
    · show (retry_call _ 1 (MAX_K2_RETRY - 1)).attempts = MAX_K2_RETRY
      rw [hall]
      simp [MAX_K2_RETRY]
    · show (retry_call _ 1 (MAX_K2_RETRY - 1)).outcome = _
      rw [hall]
  · intro oracle ho
    have hro : request_once (oracle 1) = .error (.arrayHttp code2 body2) := by
      rw [ho]; simp [request_once, h2]
    have : retry_call oracle 1 (MAX_K2_RETRY - 1) =
        ⟨1, .error (.arrayHttp code2 body2)⟩ := by
      cases h : MAX_K2_RETRY - 1 <;> simp [retry_call, hro]
    exact ⟨by rw [transport, this], by rw [transport, this]⟩

/-- C2 witness: a busy body is retried to 5 attempts; a 404 stops at the
first attempt. -/
theorem claim_transport_retry_bound_witness :
    (transport (fun _ => .httpError 400 "MC_ERR_BUSY: array busy")).attempts = 5 ∧
    (transport (fun _ => .httpError 404 "not found")).attempts = 1 := by
  have h := claim_transport_retry_bound "MC_ERR_BUSY: array busy" (by decide)
    404 "not found" (by decide)
  exact ⟨h.1.1, (h.2 (fun _ => .httpError 404 "not found") rfl).1⟩

/-- C4: when the source snapshot exists and the exposable view is created
successfully (fresh derived destination names), the view snapshot is gone
from the array after `create_volume_from_snapshot` returns — on the
success path and on every failure path (view attach, device connect,
destination create, destination attach, block copy); and whenever the
operation fails, the partially created destination volume and its volume
group have also been deleted and the raised error is the driver
exception. -/
theorem claim_snapshot_restore_cleanup (env : FlowEnv) (vid : String)
    (size : Nat) (dedup : Bool) (sid : String)
    (connector : List (String × String)) (s : ArrayState)
    (hview : env.viewSave = .ok)
    (hsnap : searchSnaps s (get_snap_name sid) ≠ [])
    (hviewfresh : searchSnaps s (get_view_name vid) = [])
    (hvolfresh : searchVolumes s (get_volume_name vid) = [])
    (hvgfresh : searchVG s (get_volume_group_name vid) = []) :
    searchSnaps (create_volume_from_snapshot env vid size dedup sid connector s).state
      (get_view_name vid) = [] ∧
    ((create_volume_from_snapshot env vid size dedup sid connector s).result ≠ .ok () →
      isDriverErr (create_volume_from_snapshot env vid size dedup sid connector s).result = true ∧
      searchVolumes (create_volume_from_snapshot env vid size dedup sid connector s).state
        (get_volume_name vid) = [] ∧
      searchVG (create_volume_from_snapshot env vid size dedup sid connector s).state
        (get_volume_group_name vid) = []) := by
  have hsc : ((searchSnaps s (get_snap_name sid)).length != 0) = true := by
    simpa [bne_iff_ne, List.length_eq_zero] using hsnap
  have hred : create_volume_from_snapshot env vid size dedup sid connector s =
      snap_try env vid size dedup (get_view_name vid) (get_volume_name vid)
        connector (addSnap s ⟨get_view_name vid, get_snap_name sid, true⟩) := by
    simp only [create_volume_from_snapshot]
    rw [if_pos hsc, hview]
  rw [hred]
  have hvf : s.snapshots.filter (fun t => t.short_name == get_view_name vid) = [] :=
    hviewfresh
  have hs0 : searchSnaps (addSnap s ⟨get_view_name vid, get_snap_name sid, true⟩)
      (get_view_name vid) = [⟨get_view_name vid, get_snap_name sid, true⟩] := by
    simp [searchSnaps, addSnap, List.filter_append, hvf]
  have c2 : searchVolumes (addSnap s ⟨get_view_name vid, get_snap_name sid, true⟩)
      (get_volume_name vid) = [] := hvolfresh
  have c3 : searchVG (addSnap s ⟨get_view_name vid, get_snap_name sid, true⟩)
      (get_volume_group_name vid) = [] := hvgfresh
  generalize hV : addSnap s ⟨get_view_name vid, get_snap_name sid, true⟩ = sV
    at hs0 c2 c3 ⊢
  have c1 : (searchSnaps sV (get_view_name vid)).length ≤ 1 := by rw [hs0]; simp
  have c2' : (searchVolumes sV (get_volume_name vid)).length ≤ 1 := by rw [c2]; simp
  have c3' : (searchVG sV (get_volume_group_name vid)).length ≤ 1 := by rw [c3]; simp
  simp only [snap_try]
  cases hA : env.srcAttachOk with
  | false =>
    rw [do_attach_fail (get_view_name vid) connector sV]
    exact snap_fail_leaf vid (get_view_name vid) connector "attach view failed"
      sV [] c1 c2' c3'
  | true =>
    rcases hDA : do_attach true (get_view_name vid) connector sV with ⟨s1, r1⟩
    have hfld := do_attach_ok (get_view_name vid) connector sV
    rw [hDA] at hfld
    obtain ⟨h1v, h1g, h1s, h1r⟩ := hfld
    replace h1v : s1.volumes = sV.volumes := h1v
    replace h1g : s1.volume_groups = sV.volume_groups := h1g
    replace h1s : s1.snapshots = sV.snapshots := h1s
    replace h1r : r1 = .ok () := h1r
    subst h1r
    dsimp only
    have cc1 : (searchSnaps s1 (get_view_name vid)).length ≤ 1 := by
      rw [searchSnaps_eq_of_snaps h1s]; exact c1
    have cc2 : searchVolumes s1 (get_volume_name vid) = [] := by
      rw [searchVolumes_eq_of_volumes h1v]; exact c2
    have cc3 : searchVG s1 (get_volume_group_name vid) = [] := by
      rw [searchVG_eq_of_vgs h1g]; exact c3
    have cc2' : (searchVolumes s1 (get_volume_name vid)).length ≤ 1 := by
      rw [cc2]; simp
    have cc3' : (searchVG s1 (get_volume_group_name vid)).length ≤ 1 := by
      rw [cc3]; simp
    cases hB : env.srcConnectOk with
    | false =>
      rw [if_neg Bool.false_ne_true]
      exact snap_fail_leaf vid (get_view_name vid) connector "connect view failed"
        s1 _ cc1 cc2' cc3'
    | true =>
      rw [if_pos rfl]
      have hvol1 : s1.volumes.filter (fun v => v.name == get_volume_name vid) = [] := cc2
      have hvg1' : s1.volume_groups.filter
          (fun g => g.name == get_volume_group_name vid) = [] := cc3
      cases hC : env.vgSave with
      | failClean =>
        rw [create_volume_vg_failClean env.volSave vid size dedup s1 cc3]
        exact snap_fail_leaf vid (get_view_name vid) connector "create volume failed"
          s1 _ cc1 cc2' cc3'
      | failCreated =>
        rw [create_volume_vg_failCreated env.volSave vid size dedup s1 cc3]
        refine snap_fail_leaf vid (get_view_name vid) connector _ _ _ ?_ ?_ ?_
        · exact cc1
        · have hXv : List.filter (fun v : Volume => v.name == get_volume_name vid)
              (List.filter (fun v => !(v.volume_group == get_volume_group_name vid))
                s1.volumes) = [] :=
            filter_nil_of_sublist _ (List.filter_sublist _) hvol1
          simp [searchVolumes, hXv]
        · exact cc3'
      | ok =>
        cases hD : env.volSave with
        | failClean =>
          rw [create_volume_vol_failClean vid size dedup s1 cc3]
          refine snap_fail_leaf vid (get_view_name vid) connector _ _ _ ?_ ?_ ?_
          · exact cc1
          · have hXv : List.filter (fun v : Volume => v.name == get_volume_name vid)
                (List.filter (fun v => !(v.volume_group == get_volume_group_name vid))
                  s1.volumes) = [] :=
              filter_nil_of_sublist _ (List.filter_sublist _) hvol1
            simp [searchVolumes, hXv]
          · exact cc3'
        | failCreated =>
          rw [create_volume_vol_failCreated vid size dedup s1 cc3]
          refine snap_fail_leaf vid (get_view_name vid) connector _ _ _ ?_ ?_ ?_
          · exact cc1
          · have hXv : List.filter (fun v : Volume => v.name == get_volume_name vid)
                (List.filter (fun v => !(v.volume_group == get_volume_group_name vid))
                  s1.volumes) = [] :=
              filter_nil_of_sublist _ (List.filter_sublist _) hvol1
            simp [searchVolumes, hXv]
          · exact cc3'
        | ok =>
          rw [create_volume_ok_eq vid size dedup s1]
          have hWv : searchVolumes (addVolume (addVG s1
              ⟨get_volume_group_name vid, 0, dedup⟩)
              ⟨get_volume_name vid, size * Mi, get_volume_group_name vid⟩)
              (get_volume_name vid) =
              [⟨get_volume_name vid, size * Mi, get_volume_group_name vid⟩] := by
            simp [searchVolumes, addVolume, addVG, List.filter_append, hvol1]
          have hWg : searchVG (addVolume (addVG s1
              ⟨get_volume_group_name vid, 0, dedup⟩)
              ⟨get_volume_name vid, size * Mi, get_volume_group_name vid⟩)
              (get_volume_group_name vid) =
              [⟨get_volume_group_name vid, 0, dedup⟩] := by
            simp [searchVG, addVolume, addVG, List.filter_append, hvg1']
          have hWs : searchSnaps (addVolume (addVG s1
              ⟨get_volume_group_name vid, 0, dedup⟩)
              ⟨get_volume_name vid, size * Mi, get_volume_group_name vid⟩)
              (get_view_name vid) = searchSnaps s1 (get_view_name vid) := rfl
          generalize hW : addVolume (addVG s1 ⟨get_volume_group_name vid, 0, dedup⟩)
              ⟨get_volume_name vid, size * Mi, get_volume_group_name vid⟩ = sW
            at hWv hWg hWs ⊢
          have cW1 : (searchSnaps sW (get_view_name vid)).length ≤ 1 := by
            rw [hWs]; exact cc1
          have cW2 : (searchVolumes sW (get_volume_name vid)).length ≤ 1 := by
            rw [hWv]; simp
          have cW3 : (searchVG sW (get_volume_group_name vid)).length ≤ 1 := by
            rw [hWg]; simp
          cases hE : env.destAttachOk with
          | false =>
            rw [do_attach_fail (get_volume_name vid) connector sW]
            exact snap_fail_leaf vid (get_view_name vid) connector
              "attach volume failed" sW _ cW1 cW2 cW3
          | true =>
            rcases hDB : do_attach true (get_volume_name vid) connector sW with ⟨s2, r2⟩
            have hfld2 := do_attach_ok (get_volume_name vid) connector sW
            rw [hDB] at hfld2
            obtain ⟨h2v, h2g, h2s, h2r⟩ := hfld2
            replace h2v : s2.volumes = sW.volumes := h2v
            replace h2g : s2.volume_groups = sW.volume_groups := h2g
            replace h2s : s2.snapshots = sW.snapshots := h2s
            replace h2r : r2 = .ok () := h2r
            subst h2r
            dsimp only
            have cS1 : (searchSnaps s2 (get_view_name vid)).length ≤ 1 := by
              rw [searchSnaps_eq_of_snaps h2s]; exact cW1
            have cS2 : (searchVolumes s2 (get_volume_name vid)).length ≤ 1 := by
              rw [searchVolumes_eq_of_volumes h2v]; exact cW2
            have cS3 : (searchVG s2 (get_volume_group_name vid)).length ≤ 1 := by
              rw [searchVG_eq_of_vgs h2g]; exact cW3
            cases hF : env.destConnectOk with
            | false =>
              rw [if_neg Bool.false_ne_true]
              exact snap_fail_leaf vid (get_view_name vid) connector
                "connect volume failed" s2 _ cS1 cS2 cS3
            | true =>
              rw [if_pos rfl]
              cases hG : env.copyOk with
              | false =>
                rw [if_neg Bool.false_ne_true]
                exact snap_fail_leaf vid (get_view_name vid) connector
                  "copy failed" s2 _ cS1 cS2 cS3
              | true =>
                rw [if_pos rfl]
                have f1 := terminate_preserves (.byId vid) connector s2
                have f2 := terminate_preserves (.handle (get_view_name vid)) connector
                  (terminate_connection (.byId vid) connector s2).state
                have hT : (terminate_connection (.handle (get_view_name vid)) connector
                    (terminate_connection (.byId vid) connector s2).state).state.snapshots
                    = s2.snapshots := f2.2.2.trans f1.2.2
                have hcnt : (List.filter
                    (fun t : Snapshot => t.short_name == get_view_name vid)
                    (terminate_connection (.handle (get_view_name vid)) connector
                      (terminate_connection (.byId vid) connector s2).state).state.snapshots).length
                    ≤ 1 := by
                  rw [hT]; exact cS1
                exact ⟨filter_delFirst_nil _ _ hcnt, fun hne => absurd rfl hne⟩

def c4_state : ArrayState := ⟨[], [], [⟨"cs-s", "vg-src", false⟩], [], []⟩

/-- C4 witness: the block copy fails; afterwards neither the view snapshot
nor the destination volume exists on the array. -/
theorem claim_snapshot_restore_cleanup_witness :
    searchSnaps (create_volume_from_snapshot
      ⟨.ok, true, true, .ok, .ok, true, true, false⟩
      "d" 1 true "s" [("host", "h1")] c4_state).state "cview-d" = [] ∧
    searchVolumes (create_volume_from_snapshot
      ⟨.ok, true, true, .ok, .ok, true, true, false⟩
      "d" 1 true "s" [("host", "h1")] c4_state).state "cv-d" = [] := by
  have h := claim_snapshot_restore_cleanup
    ⟨.ok, true, true, .ok, .ok, true, true, false⟩
    "d" 1 true "s" [("host", "h1")] c4_state rfl (by decide) (by decide)
    (by decide) (by decide)
  have h2 := h.2 (by decide)
  exact ⟨h.1, h2.2.1⟩

end Kaminario
